import Mathlib

/-!
Verification of the IT-news webhook bot (`src/main.py`) against its
natural-language specification.  The pipeline's pure logic is shallowly
embedded: timestamps are integers (seconds), external calls (the feed
fetch, the translation provider, the HTTP POST) are passed in as explicit
function arguments, and each embedded function additionally reports how
many external calls it performed where a claim depends on it.
-/

/-- A translation provider: takes the text and either yields the translated
text or fails with an error message (a raised exception in the source). -/
abbrev Provider := String → Except String String

/-- Embeds `translate_text` from `src/main.py`.  The module-level
`translator` object (possibly `None` when construction failed) is an
explicit `Option Provider` argument; the second component of the result
counts how many times the provider was invoked. -/
def translate_text (translator : Option Provider) (text : String) :
    String × Nat :=
  match translator with
  | none => ("번역 실패 (API 키 또는 텍스트를 확인하세요)", 0)
  | some t =>
    if text.isEmpty then
      ("번역 실패 (API 키 또는 텍스트를 확인하세요)", 0)
    else
      match t text with
      | .ok r => (r, 1)
      | .error _ => ("번역 중 오류 발생: " ++ text.take 50 ++ "...", 1)

/-- A parsed feed entry.  `published_parsed` is `none` when the underlying
object lacks the attribute (the `hasattr` probe in the source); `published`
and `summary` model `entry.get(..., '')`. -/
structure FeedEntry where
  title : String
  link : String
  published_parsed : Option Int
  published : String
  summary : String
  deriving DecidableEq, Repr

/-- The recency test applied to one entry inside `get_latest_news`:
`published_time >= yesterday` where `yesterday = now - 1 day` and a missing
timestamp is replaced by the current time. -/
def passesRecency (now : Int) (e : FeedEntry) : Bool :=
  decide (now - 86400 ≤ e.published_parsed.getD now)

/-- The `recent_entries` list accumulated by the loop in
`get_latest_news`: entries passing the recency test, in feed order. -/
def recentEntries (now : Int) (entries : List FeedEntry) : List FeedEntry :=
  entries.filter (passesRecency now)

/-- Embeds `get_latest_news` from `src/main.py` (the pure part: the feed
has already been fetched and parsed into `entries`; a fetch/parse failure
is the empty list).  Keeps entries passing the recency test and truncates
to the first two (`recent_entries[:2]`). -/
def get_latest_news (now : Int) (entries : List FeedEntry) : List FeedEntry :=
  (recentEntries now entries).take 2

/-- A collected news item, the dict appended to `all_news` in `main`. -/
structure NewsItem where
  site : String
  text : String
  meta : String
  url : String
  deriving DecidableEq, Repr

/-- One Slack Block Kit block as assembled by `create_slack_message`.
A section's optional accessory button is the (label, url) pair. -/
inductive Block where
  | header (text : String)
  | divider
  | section (text : String) (button : Option (String × String))
  deriving DecidableEq, Repr

/-- The leading header block of `create_slack_message`. -/
def headerBlock (news_items : List NewsItem) : Block :=
  Block.header ("📑 오늘의 주요 뉴스 (상위 " ++ toString news_items.length ++ ")")

/-- The divider-plus-section pair appended for one item in the loop of
`create_slack_message`. -/
def itemBlocks (item : NewsItem) : List Block :=
  [Block.divider,
   Block.section ("*" ++ item.site ++ "*\n" ++ item.text ++ "\n_" ++ item.meta ++ "_")
     (some ("읽기", item.url))]

/-- The item loop of `create_slack_message`: append the divider and the
section for the next item, then break when the accumulated block count
exceeds 45. -/
def buildBlocks : List NewsItem → List Block → List Block
  | [], blocks => blocks
  | item :: rest, blocks =>
    let blocks := blocks ++ itemBlocks item
    if blocks.length > 45 then blocks else buildBlocks rest blocks

/-- Embeds `create_slack_message` from `src/main.py`, returning the block
list of the payload. -/
def create_slack_message (news_items : List NewsItem) : List Block :=
  let blocks := [headerBlock news_items]
  if news_items.isEmpty then
    blocks ++ [Block.section "지난 24시간 동안 새로운 소식이 없습니다." none]
  else
    buildBlocks news_items blocks

/-- Outcome of one run of `send_to_slack`; the function always returns one
of these, it never rethrows. -/
inductive SendOutcome where
  | noWebhook
  | success
  | failed (msg : String)
  deriving DecidableEq, Repr

/-- Embeds `response.raise_for_status()`: an HTTP status in 400..599
raises, anything else returns the response unchanged. -/
def raise_for_status (status : Nat) : Except String Nat :=
  if 400 ≤ status ∧ status < 600 then .error "HTTPError" else .ok status

/-- Embeds `send_to_slack` from `src/main.py`.  `post` is the outbound
HTTP call (`requests.post`): it yields a status code or a transport-level
error.  The second component of the result counts HTTP calls made. -/
def send_to_slack (webhookUrl : Option String)
    (post : String → List Block → Except String Nat)
    (payload : List Block) : SendOutcome × Nat :=
  match webhookUrl with
  | none => (.noWebhook, 0)
  | some url =>
    match post url payload with
    | .error e => (.failed e, 1)
    | .ok status =>
      match raise_for_status status with
      | .error e => (.failed e, 1)
      | .ok _ => (.success, 1)

/-- Characters matched by the regex class `[0-9.,Kk]`. -/
def isNumTokenChar (c : Char) : Bool :=
  c.isDigit || c = '.' || c = ',' || c = 'K' || c = 'k'

/-- Characters matched by the regex `\s`. -/
def isSpaceChar (c : Char) : Bool :=
  c = ' ' || c = '\t' || c = '\n' || c = '\r'

/-- Embeds Python's `str.strip()`: remove whitespace from both ends. -/
def stripString (s : String) : String :=
  String.mk (((s.toList.dropWhile isSpaceChar).reverse.dropWhile isSpaceChar).reverse)

/-- Match a literal marker at the head of the character list, returning
the remainder on success. -/
def dropMarker : List Char → List Char → Option (List Char)
  | [], cs => some cs
  | m :: ms, c :: cs => if c = m then dropMarker ms cs else none
  | _ :: _, [] => none

/-- Try the pattern `marker\s?([0-9.,Kk]+)` at the head of `cs`,
returning the capture group.  `\s?` is greedy with backtracking, as in
the `re` engine. -/
def matchAt (marker : List Char) (cs : List Char) : Option String :=
  match dropMarker marker cs with
  | none => none
  | some rest =>
    match rest with
    | c :: rest2 =>
      if isSpaceChar c then
        let tok := rest2.takeWhile isNumTokenChar
        if tok.isEmpty then
          let tok2 := rest.takeWhile isNumTokenChar
          if tok2.isEmpty then none else some (String.mk tok2)
        else some (String.mk tok)
      else
        let tok := rest.takeWhile isNumTokenChar
        if tok.isEmpty then none else some (String.mk tok)
    | [] => none

/-- Embeds `re.search(marker + r'\s?([0-9.,Kk]+)', s)`: the leftmost
position where the pattern matches, returning the capture group. -/
def searchNum (marker : List Char) : List Char → Option String
  | [] => none
  | c :: rest =>
    match matchAt marker (c :: rest) with
    | some tok => some tok
    | none => searchNum marker rest

/-- Embeds the per-entry body of the Korean-feed loop in `main`: build the
`meta` string from the `published` prefix and the optional views/comments
figures scraped from the summary, and assemble the news dict. -/
def koreanNewsItem (name : String) (entry : FeedEntry) : NewsItem :=
  let published := entry.published.take 16
  let views := searchNum "조회수".toList entry.summary.toList
  let comments := searchNum "댓글".toList entry.summary.toList
  let meta0 := published
  let meta1 := match views with
    | some v => meta0 ++ " · 조회수 " ++ v
    | none => meta0
  let meta2 := match comments with
    | some c => meta1 ++ " · 댓글 " ++ c
    | none => meta1
  { site := name, text := entry.title, meta := stripString meta2, url := entry.link }

/-- Embeds the per-entry body of the foreign-feed loop in `main`: the
display text is the translated title, the meta is the `published` prefix. -/
def foreignNewsItem (translator : Option Provider) (name : String)
    (entry : FeedEntry) : NewsItem :=
  let published := entry.published.take 16
  { site := name,
    text := (translate_text translator entry.title).1,
    meta := stripString published,
    url := entry.link }

/-- One feed-group loop of `main`: iterate over the feeds in order,
appending the mapped output of `get_latest_news` for each feed to the
accumulator `all_news`. -/
def collectFeeds (now : Int) (mk : String → FeedEntry → NewsItem)
    (feeds : List (String × List FeedEntry)) (acc : List NewsItem) :
    List NewsItem :=
  match feeds with
  | [] => acc
  | (name, entries) :: rest =>
    collectFeeds now mk rest (acc ++ (get_latest_news now entries).map (mk name))

/-- Embeds the collection phase of `main`: the Korean-feed loop followed
by the foreign-feed loop, both appending to `all_news`.  Each feed is
given as its name paired with its already-parsed entry list. -/
def collect_news (now : Int) (translator : Option Provider)
    (koreanFeeds foreignFeeds : List (String × List FeedEntry)) :
    List NewsItem :=
  let all_news : List NewsItem := []
  let all_news := collectFeeds now koreanNewsItem koreanFeeds all_news
  collectFeeds now (foreignNewsItem translator) foreignFeeds all_news

/-- A concrete news item used in concrete instantiations. -/
def sampleItem : NewsItem :=
  { site := "GeekNews", text := "제목", meta := "2025-01-01 09:00", url := "https://e.example/1" }

/-- An entry with a concrete timestamp, used in concrete instantiations. -/
def stampedEntry (t : Int) (n : String) : FeedEntry :=
  { title := n, link := "https://s.example/" ++ n,
    published_parsed := some t, published := "", summary := "" }

/-- An entry lacking the `published_parsed` attribute. -/
def nostampEntry : FeedEntry :=
  { title := "ns", link := "https://s.example/ns",
    published_parsed := none, published := "", summary := "" }

/-- An entry stamped one hour in the future relative to filter time 0. -/
def futureEntry : FeedEntry := stampedEntry 3600 "future"

/-- An entry stamped exactly 24 hours before filter time 172800. -/
def boundaryEntry : FeedEntry := stampedEntry 86400 "boundary"

/-- A provider that always fails. -/
def errProvider : Provider := fun _ => Except.error "boom"

/-- An outbound POST that always fails at the transport level. -/
def errPost : String → List Block → Except String Nat := fun _ _ => .error "conn"

/-- An outbound POST whose final response carries the non-2xx status 304. -/
def redirectPost : String → List Block → Except String Nat := fun _ _ => .ok 304

lemma itemBlocks_length (item : NewsItem) : (itemBlocks item).length = 2 := rfl

lemma flatMap_itemBlocks_length (l : List NewsItem) :
    (l.flatMap itemBlocks).length = 2 * l.length := by
  induction l with
  | nil => rfl
  | cons x xs ih => simp [List.flatMap_cons, itemBlocks_length, ih]; omega

lemma buildBlocks_eq (rest : List NewsItem) (blocks : List Block)
    (hodd : blocks.length % 2 = 1) (hle : blocks.length ≤ 45) :
    buildBlocks rest blocks =
      blocks ++ (rest.take ((47 - blocks.length) / 2)).flatMap itemBlocks := by
  induction rest generalizing blocks with
  | nil => simp [buildBlocks]
  | cons item tl ih =>
    have hlen : (blocks ++ itemBlocks item).length = blocks.length + 2 := by
      simp [itemBlocks_length]
    by_cases h : (blocks ++ itemBlocks item).length > 45
    · have h1 : (47 - blocks.length) / 2 = 1 := by omega
      simp only [buildBlocks, if_pos h, h1, List.take_succ_cons, List.take_zero,
        List.flatMap_cons, List.flatMap_nil, List.append_nil]
    · have hodd2 : (blocks ++ itemBlocks item).length % 2 = 1 := by omega
      have hle2 : (blocks ++ itemBlocks item).length ≤ 45 := by omega
      have h47 : (47 - blocks.length) / 2 =
          (47 - (blocks ++ itemBlocks item).length) / 2 + 1 := by omega
      simp only [buildBlocks, if_neg h, ih _ hodd2 hle2, h47, List.take_succ_cons,
        List.flatMap_cons, List.append_assoc]

lemma create_slack_message_eq (items : List NewsItem) (h : items ≠ []) :
    create_slack_message items =
      headerBlock items :: (items.take 23).flatMap itemBlocks := by
  have hne : items.isEmpty = false := by
    simp [List.isEmpty_iff, h]
  have hb := buildBlocks_eq items [headerBlock items] (by rfl) (by norm_num)
  simp only [create_slack_message, hne, Bool.false_eq_true, if_false]
  simpa using hb

lemma collectFeeds_eq (now : Int) (mk : String → FeedEntry → NewsItem)
    (feeds : List (String × List FeedEntry)) (acc : List NewsItem) :
    collectFeeds now mk feeds acc =
      acc ++ feeds.flatMap (fun p => (get_latest_news now p.2).map (mk p.1)) := by
  induction feeds generalizing acc with
  | nil => simp [collectFeeds]
  | cons p tl ih =>
    obtain ⟨name, entries⟩ := p
    simp [collectFeeds, ih, List.append_assoc]

/-- C1 counterexample: rendering 24 items, the builder emits 47 blocks,
more than the 45 the claim allows (the size check fires only after a full
divider-plus-section pair has been appended). -/
theorem claim_C1_counterexample :
    (create_slack_message (List.replicate 24 sampleItem)).length = 47 ∧ 45 < 47 := by
  constructor
  · decide
  · norm_num

/-- C1 (amended): for any item list whose full rendering would produce
more than 45 blocks, the builder emits at most 47 blocks, stops appending
once the accumulated count exceeds 45 (after the 23rd item's complete
pair), and drops the trailing items while keeping the first 23 items in
input order. -/
theorem claim_C1 (items : List NewsItem) (h : 45 < 1 + 2 * items.length) :
    (create_slack_message items).length ≤ 47 ∧
    create_slack_message items =
      headerBlock items :: (items.take 23).flatMap itemBlocks ∧
    items.take 23 <+: items := by
  have hne : items ≠ [] := by
    intro he
    subst he
    simp at h
  have heq := create_slack_message_eq items hne
  refine ⟨?_, heq, List.take_prefix 23 items⟩
  rw [heq]
  have h1 := flatMap_itemBlocks_length (items.take 23)
  have h2 := List.length_take_le 23 items
  simp only [List.length_cons, h1]
  omega

/-- Witness for C1 at a concrete list of 23 items. -/
theorem claim_C1_witness :
    45 < 1 + 2 * (List.replicate 23 sampleItem).length ∧
    ((create_slack_message (List.replicate 23 sampleItem)).length ≤ 47 ∧
     create_slack_message (List.replicate 23 sampleItem) =
       headerBlock (List.replicate 23 sampleItem) ::
         ((List.replicate 23 sampleItem).take 23).flatMap itemBlocks ∧
     (List.replicate 23 sampleItem).take 23 <+: List.replicate 23 sampleItem) :=
  ⟨by norm_num, claim_C1 (List.replicate 23 sampleItem) (by norm_num)⟩

/-- C2 counterexample: at filter time 0, an entry stamped one hour in the
future lies outside the closed window [now - 24h, now], yet
`get_latest_news` retains it and the collection phase turns it into a
NewsItem handed to the Message Builder. -/
theorem claim_C2_counterexample :
    get_latest_news 0 [futureEntry] = [futureEntry] ∧
    collect_news 0 none [("GeekNews", [futureEntry])] [] =
      [koreanNewsItem "GeekNews" futureEntry] ∧
    ¬(futureEntry.published_parsed.getD 0 ≤ 0) := by
  refine ⟨by decide, by decide, by decide⟩

/-- C2 (amended): every entry returned by `get_latest_news` (hence every
NewsItem reaching the Message Builder) has its `publishedAt` (or the
substituted current time) at least `now - 24h`; the filter enforces only
this lower bound, not the upper end of the window. -/
theorem claim_C2 (now : Int) (entries : List FeedEntry) (e : FeedEntry)
    (h : e ∈ get_latest_news now entries) :
    now - 86400 ≤ e.published_parsed.getD now := by
  have h1 : e ∈ recentEntries now entries := List.mem_of_mem_take h
  have h2 := (List.mem_filter.mp h1).2
  simpa [passesRecency] using h2

/-- Witness for C2 at a concrete in-window entry. -/
theorem claim_C2_witness :
    stampedEntry (-3600) "fresh" ∈ get_latest_news 0 [stampedEntry (-3600) "fresh"] ∧
    (0 : Int) - 86400 ≤ (stampedEntry (-3600) "fresh").published_parsed.getD 0 :=
  ⟨by decide, claim_C2 0 [stampedEntry (-3600) "fresh"] _ (by decide)⟩

/-- C3 counterexample: an entry published exactly 24h00m before the filter
time is retained by `get_latest_news` (the comparison is `>=`), while the
claim says such an entry is excluded. -/
theorem claim_C3_counterexample :
    boundaryEntry.published_parsed = some (172800 - 86400) ∧
    get_latest_news 172800 [boundaryEntry] = [boundaryEntry] := by
  refine ⟨by decide, by decide⟩

/-- C3 (amended): for an entry with a valid timestamp, the Recency Filter
excludes it exactly when the timestamp is strictly older than 24 hours and
includes it when `publishedAt >= now - 24h`; the boundary entry published
exactly 24h00m before the filter time is included, not excluded. -/
theorem claim_C3 (now ts : Int) (e : FeedEntry) (entries : List FeedEntry)
    (hts : e.published_parsed = some ts) (hmem : e ∈ entries) :
    (ts < now - 86400 → e ∉ recentEntries now entries) ∧
    (now - 86400 ≤ ts → e ∈ recentEntries now entries) := by
  have hp : passesRecency now e = decide (now - 86400 ≤ ts) := by
    simp [passesRecency, hts]
  constructor
  · intro hlt hin
    have h2 := (List.mem_filter.mp hin).2
    rw [hp] at h2
    simp at h2
    omega
  · intro hge
    exact List.mem_filter.mpr ⟨hmem, by rw [hp]; simpa using hge⟩

/-- Witness for C3 at the exact 24-hour boundary: the entry is included. -/
theorem claim_C3_witness :
    boundaryEntry.published_parsed = some 86400 ∧ boundaryEntry ∈ [boundaryEntry] ∧
    (((86400 : Int) < 172800 - 86400 → boundaryEntry ∉ recentEntries 172800 [boundaryEntry]) ∧
     ((172800 : Int) - 86400 ≤ 86400 → boundaryEntry ∈ recentEntries 172800 [boundaryEntry])) :=
  ⟨by decide, by decide, claim_C3 172800 86400 boundaryEntry [boundaryEntry] (by decide) (by decide)⟩

/-- C4: an entry lacking a published timestamp has the current time
substituted, always passes the recency test, and is retained by the filter
stage regardless of the cutoff. -/
theorem claim_C4 (now : Int) (entries : List FeedEntry) (e : FeedEntry)
    (hmem : e ∈ entries) (hnone : e.published_parsed = none) :
    passesRecency now e = true ∧ e ∈ recentEntries now entries := by
  have hp : passesRecency now e = true := by
    simp only [passesRecency, hnone, Option.getD, decide_eq_true_eq]
    omega
  exact ⟨hp, List.mem_filter.mpr ⟨hmem, hp⟩⟩

/-- Witness for C4 at a concrete stamp-less entry. -/
theorem claim_C4_witness :
    nostampEntry ∈ [nostampEntry] ∧ nostampEntry.published_parsed = none ∧
    (passesRecency 0 nostampEntry = true ∧ nostampEntry ∈ recentEntries 0 [nostampEntry]) :=
  ⟨by decide, by decide, claim_C4 0 [nostampEntry] nostampEntry (by decide) (by decide)⟩

/-- C5: `get_latest_news` returns at most two entries, exactly the first
two of the recency-passing subsequence: its output is a prefix of the
filtered list, which is itself an order-preserving subsequence of the
feed's entries (no re-sorting before truncation). -/
theorem claim_C5 (now : Int) (entries : List FeedEntry) :
    (get_latest_news now entries).length ≤ 2 ∧
    get_latest_news now entries = (recentEntries now entries).take 2 ∧
    get_latest_news now entries <+: recentEntries now entries ∧
    (recentEntries now entries).Sublist entries := by
  refine ⟨?_, rfl, ?_, List.filter_sublist entries⟩
  · exact List.length_take_le 2 (recentEntries now entries)
  · exact List.take_prefix 2 (recentEntries now entries)

/-- C6: with no configured translator or with empty input text,
`translate_text` returns the fixed placeholder and performs zero provider
calls; when the provider raises, the error is caught and the result is the
placeholder carrying the first 50 characters of the original text, so a
display string is always produced. -/
theorem claim_C6 (text : String) (t : Provider) :
    translate_text none text = ("번역 실패 (API 키 또는 텍스트를 확인하세요)", 0) ∧
    translate_text (some t) "" = ("번역 실패 (API 키 또는 텍스트를 확인하세요)", 0) ∧
    (∀ e, t text = .error e → text.isEmpty = false →
      translate_text (some t) text = ("번역 중 오류 발생: " ++ text.take 50 ++ "...", 1)) := by
  refine ⟨rfl, rfl, ?_⟩
  intro e he hne
  simp [translate_text, hne, he]

/-- Witness for C6 at a concrete failing provider. -/
theorem claim_C6_witness :
    errProvider "hello" = Except.error "boom" ∧ "hello".isEmpty = false ∧
    translate_text (some errProvider) "hello" =
      ("번역 중 오류 발생: " ++ "hello".take 50 ++ "...", 1) :=
  ⟨rfl, rfl, (claim_C6 "hello" errProvider).2.2 "boom" rfl rfl⟩

/-- C7: on an empty item list the payload is exactly the header followed
by the single informational section, with no divider, no per-item section,
and no button, and nothing further is appended. -/
theorem claim_C7 :
    create_slack_message [] =
      [headerBlock [], Block.section "지난 24시간 동안 새로운 소식이 없습니다." none] ∧
    ((create_slack_message []).countP fun b =>
      match b with | Block.divider => true | _ => false) = 0 ∧
    ((create_slack_message []).countP fun b =>
      match b with | Block.section _ (some _) => true | _ => false) = 0 := by
  refine ⟨rfl, rfl, rfl⟩

/-- C8 counterexample: a POST answered with the non-2xx status 304 is not
treated as a handled failure: `raise_for_status` raises only for 400..599,
so `send_to_slack` reports success for the 304 response, contradicting the
claim that any non-2xx response is caught as a failure. -/
theorem claim_C8_counterexample :
    redirectPost "https://hooks.example/w" [] = Except.ok 304 ∧
    ¬(200 ≤ 304 ∧ 304 < 300) ∧
    send_to_slack (some "https://hooks.example/w") redirectPost [] = (.success, 1) := by
  refine ⟨rfl, by decide, by decide⟩

/-- C8 (amended): `send_to_slack` makes no HTTP call when the webhook URL
is absent, makes exactly one (never-retried) call when it is present, and
transport-level errors and 4xx/5xx statuses (those for which
`raise_for_status` raises, not every non-2xx status: a 3xx response is
reported as success) are absorbed into a returned failure outcome rather
than propagated, so the run completes regardless. -/
theorem claim_C8 (post : String → List Block → Except String Nat)
    (payload : List Block) (url : String) :
    send_to_slack none post payload = (.noWebhook, 0) ∧
    (send_to_slack (some url) post payload).2 = 1 ∧
    (∀ wh, (send_to_slack wh post payload).2 ≤ 1) ∧
    (∀ e, post url payload = .error e →
      send_to_slack (some url) post payload = (.failed e, 1)) ∧
    (∀ s, post url payload = .ok s → 400 ≤ s → s < 600 →
      send_to_slack (some url) post payload = (.failed "HTTPError", 1)) ∧
    (∀ s, post url payload = .ok s → ¬(400 ≤ s ∧ s < 600) →
      send_to_slack (some url) post payload = (.success, 1)) := by
  have hsnd : ∀ u, (send_to_slack (some u) post payload).2 = 1 := by
    intro u
    cases hp : post u payload with
    | error e => simp [send_to_slack, hp]
    | ok s =>
      by_cases h4 : 400 ≤ s ∧ s < 600
      · simp [send_to_slack, hp, raise_for_status, h4]
      · simp [send_to_slack, hp, raise_for_status, h4]
  refine ⟨rfl, hsnd url, ?_, ?_, ?_, ?_⟩
  · intro wh
    cases wh with
    | none => exact Nat.zero_le 1
    | some u => exact Nat.le_of_eq (hsnd u)
  · intro e he
    simp [send_to_slack, he]
  · intro s hs h4 h6
    simp [send_to_slack, hs, raise_for_status, h4, h6]
  · intro s hs h4
    simp [send_to_slack, hs, raise_for_status, h4]

/-- Witness for C8 at a concrete transport failure. -/
theorem claim_C8_witness :
    errPost "https://hooks.example/w" [] = Except.error "conn" ∧
    send_to_slack (some "https://hooks.example/w") errPost [] = (.failed "conn", 1) :=
  ⟨rfl, (claim_C8 errPost [] "https://hooks.example/w").2.2.2.1 "conn" rfl⟩

/-- C9: the collection phase of `main` emits all native-group items before
all foreign-group items, each group in source order and each source's
items in entry order; in the concrete scenario of two native sources each
yielding three in-window entries under the per-feed cap of two, exactly
four NewsItems are collected, in source-then-entry order. -/
theorem claim_C9 :
    (∀ (now : Int) (tr : Option Provider) (kf ff : List (String × List FeedEntry)),
      collect_news now tr kf ff =
        kf.flatMap (fun p => (get_latest_news now p.2).map (koreanNewsItem p.1)) ++
        ff.flatMap (fun p => (get_latest_news now p.2).map (foreignNewsItem tr p.1))) ∧
    collect_news 200000 none
        [("A", [stampedEntry 190000 "a1", stampedEntry 180000 "a2", stampedEntry 170000 "a3"]),
         ("B", [stampedEntry 160000 "b1", stampedEntry 150000 "b2", stampedEntry 140000 "b3"])]
        [] =
      [koreanNewsItem "A" (stampedEntry 190000 "a1"),
       koreanNewsItem "A" (stampedEntry 180000 "a2"),
       koreanNewsItem "B" (stampedEntry 160000 "b1"),
       koreanNewsItem "B" (stampedEntry 150000 "b2")] := by
  constructor
  · intro now tr kf ff
    unfold collect_news
    rw [collectFeeds_eq, collectFeeds_eq]
    simp
  · decide

/-- C10: for a non-empty item list, the payload is the header followed by
complete divider-plus-section pairs (a pair is never split by the size
limit), so the block count is 1 + 2 × (items rendered), always odd, and
never exceeds 47. -/
theorem claim_C10 (items : List NewsItem) (h : items ≠ []) :
    create_slack_message items =
      headerBlock items :: (items.take 23).flatMap itemBlocks ∧
    (create_slack_message items).length = 1 + 2 * (items.take 23).length ∧
    (create_slack_message items).length % 2 = 1 ∧
    (create_slack_message items).length ≤ 47 := by
  have heq := create_slack_message_eq items h
  have h1 := flatMap_itemBlocks_length (items.take 23)
  have h2 := List.length_take_le 23 items
  refine ⟨heq, ?_, ?_, ?_⟩ <;> rw [heq] <;> simp only [List.length_cons, h1] <;> omega

/-- Witness for C10 at a concrete one-item list. -/
theorem claim_C10_witness :
    ([sampleItem] : List NewsItem) ≠ [] ∧
    (create_slack_message [sampleItem] =
       headerBlock [sampleItem] :: (([sampleItem] : List NewsItem).take 23).flatMap itemBlocks ∧
     (create_slack_message [sampleItem]).length = 1 + 2 * (([sampleItem] : List NewsItem).take 23).length ∧
     (create_slack_message [sampleItem]).length % 2 = 1 ∧
     (create_slack_message [sampleItem]).length ≤ 47) :=
  ⟨by decide, claim_C10 [sampleItem] (by decide)⟩
